import Mathlib

/-!
Verification of the multi-dialect database access layer of the sqlweb
repository (Go). The Go sources are shallowly embedded: pure query-building
code becomes Lean functions on strings and integers; code that talks to the
database handle is embedded against an explicit oracle record whose fields
stand for the driver calls (`Exec`, `Query`, `QueryRow().Scan(...)`), with
the list of executed statements threaded explicitly where a claim is about
which statements reach the database. Go `float64` arithmetic in the
pagination handler is modelled exactly over `ℚ`; Go machine integers are
modelled as `Int` (no operation here approaches 64-bit overflow).
-/

namespace Sqlweb

/-- ASCII lower-casing of one character, as Go `strings.ToLower` acts on the
ASCII letters (the repository only lower-cases dialect and SQL type names). -/
def goToLowerChar (c : Char) : Char :=
  if 'A' ≤ c ∧ c ≤ 'Z' then Char.ofNat (c.toNat + 32) else c

/-- Go `strings.ToLower`, character by character. -/
def goToLower (s : String) : String :=
  String.mk (s.data.map goToLowerChar)

/-- Does `pat` occur at the start of `l`? Helper for the model of Go
`strings.Contains`. -/
def headMatches : List Char → List Char → Bool
  | [], _ => true
  | _ :: _, [] => false
  | p :: ps, c :: cs => p = c && headMatches ps cs

/-- Does `pat` occur anywhere in `l`? -/
def hasSub (pat : List Char) : List Char → Bool
  | [] => headMatches pat []
  | c :: cs => headMatches pat (c :: cs) || hasSub pat cs

/-- Go `strings.Contains s pat` on the underlying character lists. -/
def goContains (s pat : String) : Bool :=
  hasSub pat.data s.data

/-- db/sql/type.go: the closed enumeration of database kinds. -/
inductive DbType
  | MySQL
  | PostgreSQL
  | SQLite
  | Unsupported
deriving DecidableEq

/-- db/sql/type.go `DbType.String()`: the three supported kinds print their
name, every other value prints `Unsupported`. -/
def DbType.string : DbType → String
  | .MySQL => "MySQL"
  | .PostgreSQL => "PostgreSQL"
  | .SQLite => "SQLite"
  | .Unsupported => "Unsupported"

/-- db/connection/connection.go `parseDbType`: case-insensitive match of a
user-supplied string against the three dialect names. -/
def parseDbType (dbType : String) : DbType :=
  if goToLower dbType = "mysql" then DbType.MySQL
  else if goToLower dbType = "postgresql" then DbType.PostgreSQL
  else if goToLower dbType = "sqlite" then DbType.SQLite
  else DbType.Unsupported

/-- pkg/client/client.go `Column`: column metadata produced by introspection. -/
structure Column where
  field : String
  ctype : String
  key : String
  constraintName : String
  referencedTable : String
  referencedColumn : String
deriving DecidableEq

/-- db/sql/statement.go `MySQLSelectAllWithLimit =
"SELECT %s FROM %s.%s LIMIT %d OFFSET %d"`, applied as `fmt.Sprintf` does. -/
def MySQLSelectAllWithLimit (cols schema table : String) (perPage offset : Int) : String :=
  "SELECT " ++ cols ++ " FROM " ++ schema ++ "." ++ table ++
    " LIMIT " ++ toString perPage ++ " OFFSET " ++ toString offset

/-- db/sql/statement.go `PostgreSQLSelectAllWithLimit =
"SELECT %s FROM %s.%s LIMIT %d OFFSET %d"`, applied as `fmt.Sprintf` does. -/
def PostgreSQLSelectAllWithLimit (cols schema table : String) (perPage offset : Int) : String :=
  "SELECT " ++ cols ++ " FROM " ++ schema ++ "." ++ table ++
    " LIMIT " ++ toString perPage ++ " OFFSET " ++ toString offset

/-- Modelled from the spec: the constant `SQLiteSelectAllWithLimit` is not in
db/sql/statement.go (the file predates SQLite support); its call site,
`buildSelectAll` in pkg/client/client.go, passes exactly four arguments —
column list, table, perPage, offset — and no schema, so the template is the
spec's statement shape with the dialect's unquoted identifiers and four
verbs: `SELECT %s FROM %s LIMIT %d OFFSET %d`. -/
def SQLiteSelectAllWithLimit (cols table : String) (perPage offset : Int) : String :=
  "SELECT " ++ cols ++ " FROM " ++ table ++
    " LIMIT " ++ toString perPage ++ " OFFSET " ++ toString offset

/-- One identifier as the loop of `buildSelectAll` quotes it
(pkg/client/client.go lines 521-528): backticks for MySQL, double quotes for
PostgreSQL, the bare field otherwise. -/
def quotedField (DbTypeStr : String) (c : Column) : String :=
  if goToLower DbTypeStr = goToLower (DbType.string DbType.MySQL) then
    "`" ++ c.field ++ "`"
  else if goToLower DbTypeStr = goToLower (DbType.string DbType.PostgreSQL) then
    "\"" ++ c.field ++ "\""
  else
    c.field

/-- The `columnList` accumulation loop of `buildSelectAll`
(pkg/client/client.go lines 516-529): `", "` is appended before every
identifier except the first (`if i > 0`). -/
def columnListLoop (DbTypeStr : String) (cols : List Column) : String :=
  (cols.foldl
    (fun (acc : String × Nat) c =>
      ((if 0 < acc.2 then acc.1 ++ ", " else acc.1) ++ quotedField DbTypeStr c, acc.2 + 1))
    ("", 0)).1

/-- pkg/client/client.go `buildSelectAll` (lines 511-541): builds the quoted
column list, then selects the dialect template by the lower-cased dialect
string; an unmatched dialect leaves `query` at the empty string. -/
def buildSelectAll (cols : List Column) (DbTypeStr schema table : String)
    (perPage offset : Int) : String :=
  let columnList := columnListLoop DbTypeStr cols
  if goToLower DbTypeStr = goToLower (DbType.string DbType.MySQL) then
    MySQLSelectAllWithLimit columnList schema table perPage offset
  else if goToLower DbTypeStr = goToLower (DbType.string DbType.PostgreSQL) then
    PostgreSQLSelectAllWithLimit columnList schema table perPage offset
  else if goToLower DbTypeStr = goToLower (DbType.string DbType.SQLite) then
    SQLiteSelectAllWithLimit columnList table perPage offset
  else ""

/-- A comma-separated list, the spec's reading of `<quoted-cols>`. -/
def commaSeparated : List String → String
  | [] => ""
  | [x] => x
  | x :: y :: r => x ++ ", " ++ commaSeparated (y :: r)

/-- The spec's per-dialect identifier quoting (claim C1's words): backticks
for MySQL, double quotes for PostgreSQL, bare for SQLite. -/
def specQuote (d : DbType) (c : Column) : String :=
  match d with
  | .MySQL => "`" ++ c.field ++ "`"
  | .PostgreSQL => "\"" ++ c.field ++ "\""
  | _ => c.field

/-- The statement shape claim C1 asserts for every dialect:
`SELECT <quoted-cols> FROM <schema>.<table> LIMIT <perPage> OFFSET <offset>`. -/
def specSelectAll (cols : List Column) (d : DbType) (schema table : String)
    (perPage offset : Int) : String :=
  "SELECT " ++ commaSeparated (cols.map (specQuote d)) ++ " FROM " ++ schema ++ "." ++ table ++
    " LIMIT " ++ toString perPage ++ " OFFSET " ++ toString offset

/-- Go `math.Round` (round half away from zero) on exact rationals. -/
def goMathRound (x : ℚ) : ℚ :=
  if 0 ≤ x then ((⌊x + 1 / 2⌋ : ℤ) : ℚ) else ((⌈x - 1 / 2⌉ : ℤ) : ℚ)

/-- pkg/handler/handler.go `TableDataHandler` lines 644-649: the page count is
`float64(rows) / float64(perPage)`, replaced by 1 when below 1 and passed to
`math.Round` otherwise. The `float64` arithmetic is modelled exactly over ℚ. -/
def handlerTotalPages (totalRows perPage : ℕ) : ℚ :=
  let t : ℚ := (totalRows : ℚ) / (perPage : ℚ)
  if t < 1 then 1 else goMathRound t

/-- Helper spelling of the tail of the `columnList` loop: every identifier
after the first arrives prefixed by `", "`. -/
def restConcat (DbTypeStr : String) : List Column → String
  | [] => ""
  | c :: cs => ", " ++ quotedField DbTypeStr c ++ restConcat DbTypeStr cs

/-- part_004 (package query) line 217: `stringDataTypes` — the substrings of
data-type names whose values require quoting in SQL update statements. -/
def stringDataTypes : List String := ["char", "text", "date", "time", "year"]

/-- The loop body of `wrapValue` (part_004 lines 257-265): return the
single-quoted value at the first matching substring, the bare value if none
matches. -/
def wrapValueLoop : List String → String → String → String
  | [], _, value => value
  | substr :: rest, lowerCase, value =>
    if goContains lowerCase substr then "'" ++ value ++ "'"
    else wrapValueLoop rest lowerCase value

/-- part_004 `wrapValue(dataType, value)`: wraps `value` in single quotes when
the lower-cased `dataType` contains one of `stringDataTypes`. -/
def wrapValue (dataType value : String) : String :=
  wrapValueLoop stringDataTypes (goToLower dataType) value

/-- The loop body of `wrapPrimaryKey` (part_004 lines 271-279) — duplicated
in the source, so duplicated here. -/
def wrapKeyLoop : List String → String → String → String
  | [], _, priKey => priKey
  | substr :: rest, lowerCase, priKey =>
    if goContains lowerCase substr then "'" ++ priKey ++ "'"
    else wrapKeyLoop rest lowerCase priKey

/-- part_004 `wrapPrimaryKey(dataType, priKey)`: same quoting rule as
`wrapValue`, duplicated over the WHERE-key value. -/
def wrapPrimaryKey (dataType priKey : String) : String :=
  wrapKeyLoop stringDataTypes (goToLower dataType) priKey

/-- A value as the Go `database/sql` driver surfaces a cell
(`interface{}` scanned into `values[i]`): a byte slice, a string, an
integer, a float (`float64` as an exact rational), a bool, a time value
(abstracted to its tick count) or SQL NULL. -/
inductive GoVal
  | bytes (b : List UInt8)
  | str (s : String)
  | int (n : Int)
  | float (q : ℚ)
  | bool (b : Bool)
  | time (t : Int)
  | null
deriving DecidableEq

/-- Is this driver value a byte slice? (the `val.([]byte)` type assertion) -/
def GoVal.isBytes : GoVal → Bool
  | .bytes _ => true
  | _ => false

/-- Go `string(b)` on a scanned byte slice, modelled byte-for-byte. -/
def stringOfBytes (b : List UInt8) : String :=
  String.mk (b.map (fun x => Char.ofNat x.toNat))

/-- One cell as the row-decoding loops of `getTableHelper`
(pkg/client/client.go lines 589-599) and `execQueryHelper` (part_004 lines
430-437) map it: a byte slice becomes its string form, everything else passes
through unchanged. -/
def decodeCell : GoVal → GoVal
  | .bytes b => .str (stringOfBytes b)
  | v => v

/-- A decoded row: the Go `map[string]interface{}` keyed by column name. -/
def RowFn : Type := String → Option GoVal

/-- One `row[col] = v` assignment into the Go map (later writes win). -/
def rowInsert (r : RowFn) (k : String) (v : GoVal) : RowFn :=
  fun k2 => if k2 = k then some v else r k2

/-- The per-row decoding loop: `for i, col := range columns { row[col] = decode(values[i]) }`. -/
def buildRowAux : RowFn → List String → List GoVal → RowFn
  | r, [], _ => r
  | r, _ :: _, [] => r
  | r, c :: cs, v :: vs => buildRowAux (rowInsert r c (decodeCell v)) cs vs

/-- A scanned raw row decoded into the Go map, starting from the empty map. -/
def buildRow (cols : List String) (vals : List GoVal) : RowFn :=
  buildRowAux (fun _ => none) cols vals

/-- Outcome of Go `db.Exec`: a `sql.Result` whose `RowsAffected()` may itself
fail. -/
structure ExecRes where
  rowsAffected : Except String Int

/-- A raw result set surfaced by `db.Query`: the column names and the scanned
rows, in result-set order. -/
structure RawResultSet where
  columns : List String
  rows : List (List GoVal)
deriving DecidableEq

/-- The database handle as an oracle: one field per driver-call shape the
embedded operations use (`Exec`, `Query`, and `QueryRow(...).Scan` into one
string, a list of strings per row, or a name/size pair). -/
structure GoDB where
  exec : String → Except String ExecRes
  query : String → Except String RawResultSet
  queryRowString : String → Except String String
  queryStrings : String → Except String (List String)
  queryRowNameSize : String → Except String (String × ℚ)

/-- The slice of pkg/client `Client` the embedded operations read: the
nil-able handle `Database`, the dialect `Type` and `Schema.Name`. -/
structure Client where
  database : Option GoDB
  dbtype : DbType
  schemaName : String

/-- pkg/client `SchemaSize` (client.go lines 86-89), size in MB as ℚ. -/
structure SchemaSize where
  name : String
  size : ℚ
deriving DecidableEq

/-- db/sql/statement.go `MySQLUse = "USE %s"`. -/
def MySQLUse (db : String) : String := "USE " ++ db

/-- db/sql/statement.go `MySQLShowDatabases`. -/
def MySQLShowDatabases : String := "SHOW DATABASES"

/-- db/sql/statement.go `PostgreSQLShowDatabases` (raw-string whitespace
condensed). -/
def PostgreSQLShowDatabases : String :=
  "SELECT datname FROM pg_database WHERE NOT datistemplate"

/-- db/sql/statement.go `MySQLSchemaSize` applied to the schema name
(raw-string whitespace condensed). -/
def MySQLSchemaSize (name : String) : String :=
  "SELECT table_schema \"database\", sum(data_length + index_length)/1024/1024 \"size in MB\" FROM information_schema.TABLES WHERE table_schema = '"
    ++ name ++ "' GROUP BY table_schema;"

/-- db/sql/statement.go `PostgreSQLSchemaSize` (raw-string whitespace
condensed). -/
def PostgreSQLSchemaSize : String :=
  "SELECT pg_size_pretty(pg_database_size(current_database())) AS \"database size\""

/-- db/sql/statement.go `MySQLGetColumnDataType` applied to schema, table and
column (raw-string whitespace condensed). -/
def MySQLGetColumnDataType (schema table column : String) : String :=
  "SELECT DATA_TYPE FROM INFORMATION_SCHEMA.COLUMNS WHERE TABLE_SCHEMA = '" ++ schema
    ++ "' AND TABLE_NAME = '" ++ table ++ "' AND COLUMN_NAME = '" ++ column ++ "';"

/-- db/sql/statement.go `PostgreSQLGetColumnDataType` applied to schema, table
and column (raw-string whitespace condensed). -/
def PostgreSQLGetColumnDataType (schema table column : String) : String :=
  "SELECT data_type FROM information_schema.columns WHERE table_schema = '" ++ schema
    ++ "' AND table_name = '" ++ table ++ "' AND column_name = '" ++ column ++ "';"

/-- db/sql/statement.go `SQLUpdateRow = "UPDATE %s SET %s = %s WHERE %s = %s"`. -/
def SQLUpdateRow (table col val keyCol keyVal : String) : String :=
  "UPDATE " ++ table ++ " SET " ++ col ++ " = " ++ val ++ " WHERE " ++ keyCol ++ " = " ++ keyVal

/-- db/sql/statement.go `PostgreSQLShowCreateFunction`: the server-side
plpgsql routine `public.show_create_table(varchar, varchar)` that rebuilds a
CREATE TABLE statement from the catalogs (raw-string whitespace and SQL
comments condensed; the embedded operations only compare this statement for
identity). -/
def PostgreSQLShowCreateFunction : String :=
  "CREATE OR REPLACE FUNCTION public.show_create_table(in_schema_name varchar, in_table_name varchar) RETURNS text LANGUAGE plpgsql VOLATILE AS $$\n"
    ++ "DECLARE v_table_ddl text; v_table_oid int; v_column_record record; v_constraint_record record; v_index_record record;\n"
    ++ "BEGIN\n"
    ++ "SELECT c.oid INTO v_table_oid FROM pg_catalog.pg_class c LEFT JOIN pg_catalog.pg_namespace n ON n.oid = c.relnamespace WHERE 1=1 AND c.relkind = 'r' AND c.relname = in_table_name AND n.nspname = in_schema_name;\n"
    ++ "v_table_ddl := 'CREATE TABLE ' || in_schema_name || '.' || in_table_name || ' (' || E'\\n';\n"
    ++ "FOR v_column_record IN SELECT c.column_name, c.data_type, c.character_maximum_length, c.is_nullable, c.column_default FROM information_schema.columns c WHERE (table_schema, table_name) = (in_schema_name, in_table_name) ORDER BY ordinal_position\n"
    ++ "LOOP v_table_ddl := v_table_ddl || '  ' || v_column_record.column_name || ' ' || v_column_record.data_type || CASE WHEN v_column_record.character_maximum_length IS NOT NULL THEN ('(' || v_column_record.character_maximum_length || ')') ELSE '' END || ' ' || CASE WHEN v_column_record.is_nullable = 'NO' THEN 'NOT NULL' ELSE 'NULL' END || CASE WHEN v_column_record.column_default IS NOT null THEN (' DEFAULT ' || v_column_record.column_default) ELSE '' END || ',' || E'\\n'; END LOOP;\n"
    ++ "FOR v_constraint_record IN SELECT con.conname as constraint_name, con.contype as constraint_type, CASE WHEN con.contype = 'p' THEN 1 WHEN con.contype = 'u' THEN 2 WHEN con.contype = 'f' THEN 3 WHEN con.contype = 'c' THEN 4 ELSE 5 END as type_rank, pg_get_constraintdef(con.oid) as constraint_definition FROM pg_catalog.pg_constraint con JOIN pg_catalog.pg_class rel ON rel.oid = con.conrelid JOIN pg_catalog.pg_namespace nsp ON nsp.oid = connamespace WHERE nsp.nspname = in_schema_name AND rel.relname = in_table_name ORDER BY type_rank\n"
    ++ "LOOP v_table_ddl := v_table_ddl || '  ' || 'CONSTRAINT' || ' ' || v_constraint_record.constraint_name || ' ' || v_constraint_record.constraint_definition || ',' || E'\\n'; END LOOP;\n"
    ++ "v_table_ddl = substr(v_table_ddl, 0, length(v_table_ddl) - 1) || E'\\n';\n"
    ++ "v_table_ddl := v_table_ddl || ');' || E'\\n';\n"
    ++ "FOR v_index_record IN SELECT indexdef FROM pg_indexes WHERE (schemaname, tablename) = (in_schema_name, in_table_name)\n"
    ++ "LOOP v_table_ddl := v_table_ddl || v_index_record.indexdef || ';' || E'\\n'; END LOOP;\n"
    ++ "RETURN v_table_ddl;\n"
    ++ "END;\n$$;"

/-- db/sql/statement.go `PostgreSQLShowCreate` applied to schema and table. -/
def PostgreSQLShowCreate (schema table : String) : String :=
  "SELECT * FROM public.show_create_table('" ++ schema ++ "', '" ++ table ++ "');"

/-- db/sql/statement.go `PostgreSQLDropShowCreateFunction`. -/
def PostgreSQLDropShowCreateFunction : String :=
  "DROP FUNCTION public.show_create_table(varchar, varchar);"

/-- pkg/client/client.go `getSchemaNamesHelper` (lines 110-137): run the
query, scan each row's single column; driver errors propagate. -/
def getSchemaNamesHelper (query : String) (db : GoDB) : Except String (List String) :=
  db.queryStrings query

/-- pkg/client/client.go `GetSchemaNames` (lines 139-169): nil-check, then the
dialect switch; MySQL and PostgreSQL run their SHOW-databases query, every
other dialect falls through to `return nil, nil`, modelled as `.ok none`
(success carries `.ok (some names)`). -/
def GetSchemaNames (c : Client) : Except String (Option (List String)) :=
  match c.database with
  | none => .error "database connection is nil"
  | some db =>
    if goToLower (DbType.string c.dbtype) = goToLower (DbType.string DbType.MySQL) then
      match getSchemaNamesHelper MySQLShowDatabases db with
      | .error e => .error e
      | .ok names => .ok (some names)
    else if goToLower (DbType.string c.dbtype) = goToLower (DbType.string DbType.PostgreSQL) then
      match getSchemaNamesHelper PostgreSQLShowDatabases db with
      | .error e => .error e
      | .ok names => .ok (some names)
    else .ok none

/-- pkg/client/client.go `getSchemaSizeHelper` (lines 171-184): scan a
name/size pair; any scan failure (`ErrNoRows` included) becomes an error. -/
def getSchemaSizeHelper (query : String) (db : GoDB) : Except String SchemaSize :=
  match db.queryRowNameSize query with
  | .error e => .error ("error executing query: " ++ e)
  | .ok p => .ok ⟨p.1, p.2⟩

/-- pkg/client/client.go `GetSchemaSize` (lines 186-216). Note lines 203 and
210: when the helper fails the source returns `SchemaSize{}, nil` — the error
is replaced by a zero value and a nil error, modelled as `.ok ⟨"", 0⟩`; the
dialect fall-through (line 215) also returns the zero value with nil error. -/
def GetSchemaSize (c : Client) (name : String) : Except String SchemaSize :=
  match c.database with
  | none => .error "database connection is nil"
  | some db =>
    if goToLower (DbType.string c.dbtype) = goToLower (DbType.string DbType.MySQL) then
      match getSchemaSizeHelper (MySQLSchemaSize name) db with
      | .error _ => .ok ⟨"", 0⟩
      | .ok s => .ok s
    else if goToLower (DbType.string c.dbtype) = goToLower (DbType.string DbType.PostgreSQL) then
      match getSchemaSizeHelper PostgreSQLSchemaSize db with
      | .error _ => .ok ⟨"", 0⟩
      | .ok s => .ok s
    else .ok ⟨"", 0⟩

/-- part_004 query `Result`, restricted to the fields the claims speak about
(the wall-clock `Time` and the message that embeds it are not modellable). -/
structure QueryResult where
  affectedRows : Int
  data : List RowFn

/-- part_004 `execQueryHelper` (lines 383-449): run the query, decode every
row with the byte-to-string loop (same loop as `getTableHelper`), count the
decoded rows. -/
def execQueryHelper (db : GoDB) (query : String) : Except String QueryResult :=
  match db.query query with
  | .error e => .error e
  | .ok rs => .ok ⟨(rs.rows.length : Int), rs.rows.map (buildRow rs.columns)⟩

/-- part_004 `ExecuteQuery` (lines 346-381): nil-check, then the dialect
switch (the source lower-cases the client's dialect string twice); MySQL
first issues `USE <schema>`, PostgreSQL runs the query directly, and any
other dialect falls through to `return nil, nil`, modelled as `.ok none`. -/
def ExecuteQuery (q : String) (c : Client) : Except String (Option QueryResult) :=
  match c.database with
  | none => .error "database connection is nil"
  | some db =>
    if goToLower (goToLower (DbType.string c.dbtype))
        = goToLower (DbType.string DbType.MySQL) then
      match db.exec (MySQLUse c.schemaName) with
      | .error e => .error e
      | .ok _ =>
        match execQueryHelper db q with
        | .error e => .error e
        | .ok res => .ok (some res)
    else if goToLower (goToLower (DbType.string c.dbtype))
        = goToLower (DbType.string DbType.PostgreSQL) then
      match execQueryHelper db q with
      | .error e => .error e
      | .ok res => .ok (some res)
    else .ok none

/-- pkg/client `Table` restricted to what `getTableHelper` fills (client.go
lines 611-615): decoded rows, column count, row count. -/
structure GoTable where
  data : List RowFn
  nColumns : Nat
  nRows : Nat

/-- pkg/client/client.go `getTableHelper` (lines 543-618): nil-check, run the
query, decode each scanned row cell-by-cell (byte slices to strings, all else
unchanged) appending rows in result-set order. -/
def getTableHelper (query : String) (db : Option GoDB) : Except String GoTable :=
  match db with
  | none => .error "database connection is nil"
  | some d =>
    match d.query query with
    | .error e => .error e
    | .ok rs =>
      let results := rs.rows.map (buildRow rs.columns)
      .ok ⟨results, rs.columns.length, results.length⟩

/-- part_004 `getColumnDataType` (lines 227-251): nil-check, pick the
dialect's catalog query (an unmatched dialect leaves it empty), scan one
string. -/
def getColumnDataType (table schema column dbTypeStr : String) (db : Option GoDB) :
    Except String String :=
  match db with
  | none => .error "database connection is nil"
  | some d =>
    let query :=
      if goToLower dbTypeStr = goToLower (DbType.string DbType.MySQL) then
        MySQLGetColumnDataType schema table column
      else if goToLower dbTypeStr = goToLower (DbType.string DbType.PostgreSQL) then
        PostgreSQLGetColumnDataType schema table column
      else ""
    d.queryRowString query

/-- part_004 query `Result` as `UpdateRow` fills it, restricted to the
affected-row count (wall-clock timing is not modellable). -/
structure UpdateResult where
  affectedRows : Int

/-- part_004 `UpdateRow` (lines 284-344): nil-check; probe the data type of
the target column, wrap the new value; probe the data type of the key column,
wrap the key value; build the UPDATE statement and execute it. The second
component is the list of statements handed to `db.Exec`, in order. -/
def UpdateRow (table parentCol newVal priKeyVal priKeyCol : String) (c : Client) :
    Except String UpdateResult × List String :=
  match c.database with
  | none => (.error "database connection is nil", [])
  | some db =>
    match getColumnDataType table c.schemaName parentCol (DbType.string c.dbtype) c.database with
    | .error e => (.error e, [])
    | .ok dt1 =>
      let wrappedValue := wrapValue dt1 newVal
      match getColumnDataType table c.schemaName priKeyCol (DbType.string c.dbtype) c.database with
      | .error e => (.error e, [])
      | .ok dt2 =>
        let wrappedPrimaryKey := wrapPrimaryKey dt2 priKeyVal
        let query := SQLUpdateRow table parentCol wrappedValue priKeyCol wrappedPrimaryKey
        match db.exec query with
        | .error e => (.error e, [query])
        | .ok sqlResult =>
          match sqlResult.rowsAffected with
          | .error e => (.error e, [query])
          | .ok rows => (.ok ⟨rows⟩, [query])

/-- The per-table loop of `ShowCreateTablePostgreSQL` (client.go lines
1194-1203): look up each table's DDL through the server-side function,
appending separator, header and statement to the builder; the first lookup
failure returns the builder content so far with the error. -/
def pgShowCreateLoop (db : GoDB) (schemaName seperator : String) :
    List String → String → String × Option String
  | [], acc => (acc, none)
  | t :: ts, acc =>
    match db.queryRowString (PostgreSQLShowCreate schemaName t) with
    | .error e => (acc, some e)
    | .ok sqlStatement =>
      pgShowCreateLoop db schemaName seperator ts
        (acc ++ seperator ++ "\n" ++ "===== TABLE: " ++ t ++ " =====" ++ "\n"
          ++ sqlStatement ++ "\n")

/-- pkg/client/client.go `ShowCreateTablePostgreSQL` (lines 1170-1206):
nil-check; create the server-side reconstruction function (on failure, return
— nothing to clean up); from then on the drop of that function is deferred,
so it executes on every exit of the function, including a mid-loop lookup
failure. The second component is the list of statements handed to `db.Exec`,
in order. -/
def ShowCreateTablePostgreSQL (c : Client) (tables : List String) (seperator : String) :
    (String × Option String) × List String :=
  match c.database with
  | none => (("", some "database connection is nil"), [])
  | some db =>
    match db.exec PostgreSQLShowCreateFunction with
    | .error e => (("", some e), [PostgreSQLShowCreateFunction])
    | .ok _ =>
      (pgShowCreateLoop db c.schemaName seperator tables "",
        [PostgreSQLShowCreateFunction, PostgreSQLDropShowCreateFunction])

/-- The query-construction slice of pkg/client `GetTable` (client.go lines
635 and 641): `offset := (page - 1) * perPage` and
`query := buildSelectAll(cols, c.Type.String(), c.Schema.Name, tableName,
perPage, offset)`. -/
def getTableSelectQuery (c : Client) (tableName : String) (page perPage : Int)
    (cols : List Column) : String :=
  buildSelectAll cols (DbType.string c.dbtype) c.schemaName tableName perPage
    ((page - 1) * perPage)

/-- An oracle whose every call succeeds benignly (used for concrete
instances). -/
def trivialDB : GoDB where
  exec := fun _ => .ok ⟨.ok 0⟩
  query := fun _ => .ok ⟨[], []⟩
  queryRowString := fun _ => .ok ""
  queryStrings := fun _ => .ok []
  queryRowNameSize := fun _ => .ok ("", 0)

/-- A live client with the Unsupported dialect. -/
def unsupportedClient : Client := ⟨some trivialDB, DbType.Unsupported, "s"⟩

/-- An oracle whose type probes report VARCHAR and whose statements succeed. -/
def varcharDB : GoDB := { trivialDB with queryRowString := fun _ => .ok "VARCHAR" }

/-- A MySQL client over `varcharDB`. -/
def varcharClient : Client := ⟨some varcharDB, DbType.MySQL, "s"⟩

/-- An oracle whose type probes report INT and whose statements succeed. -/
def intDB : GoDB := { trivialDB with queryRowString := fun _ => .ok "INT" }

/-- A MySQL client over `intDB`. -/
def intClient : Client := ⟨some intDB, DbType.MySQL, "s"⟩

/-- An oracle whose schema-size scan fails. -/
def failingSizeDB : GoDB := { trivialDB with queryRowNameSize := fun _ => .error "connection lost" }

/-- An oracle whose `Exec` succeeds but whose per-table DDL lookup fails. -/
def pgFailDB : GoDB := { trivialDB with queryRowString := fun _ => .error "relation missing" }

/-- An oracle whose single-string scans (the type probes) fail. -/
def probeFailDB : GoDB := { trivialDB with queryRowString := fun _ => .error "no such column" }

/-- A MySQL client over `probeFailDB`. -/
def probeFailClient : Client := ⟨some probeFailDB, DbType.MySQL, "s"⟩

/-- A two-column sample result set: a byte-slice cell (`"hi"`) and an int cell. -/
def sampleRS : RawResultSet := ⟨["name", "n"], [[GoVal.bytes [104, 105], GoVal.int 7]]⟩

/-- An oracle that returns `sampleRS` for every query. -/
def sampleDB : GoDB := { trivialDB with query := fun _ => .ok sampleRS }

theorem str_append_nil (s : String) : s ++ "" = s := by
  cases s with
  | mk l => show String.mk (l ++ []) = String.mk l
            rw [List.append_nil]

theorem str_append_assoc (a b c : String) : a ++ b ++ c = a ++ (b ++ c) := by
  cases a with
  | mk la =>
    cases b with
    | mk lb =>
      cases c with
      | mk lc => show String.mk (la ++ lb ++ lc) = String.mk (la ++ (lb ++ lc))
                 rw [List.append_assoc]

theorem columnListLoop_go (DbTypeStr : String) :
    ∀ (cols : List Column) (s : String) (n : ℕ), 0 < n →
      (cols.foldl
        (fun (acc : String × Nat) c =>
          ((if 0 < acc.2 then acc.1 ++ ", " else acc.1) ++ quotedField DbTypeStr c, acc.2 + 1))
        (s, n)).1 = s ++ restConcat DbTypeStr cols := by
  intro cols
  induction cols with
  | nil => intro s n _; simp [restConcat, str_append_nil]
  | cons c cs ih =>
    intro s n hn
    simp only [List.foldl_cons, restConcat]
    rw [if_pos hn]
    rw [ih (s ++ ", " ++ quotedField DbTypeStr c) (n + 1) (Nat.succ_pos n)]
    rw [str_append_assoc, str_append_assoc, str_append_assoc]

theorem commaSeparated_map (DbTypeStr : String) :
    ∀ (cs : List Column) (c : Column),
      commaSeparated ((c :: cs).map (quotedField DbTypeStr))
        = quotedField DbTypeStr c ++ restConcat DbTypeStr cs := by
  intro cs
  induction cs with
  | nil => intro c; simp [commaSeparated, restConcat, str_append_nil]
  | cons c2 cs2 ih =>
    intro c
    simp only [List.map, commaSeparated, restConcat] at ih ⊢
    rw [ih c2]
    rw [str_append_assoc, str_append_assoc]

theorem columnListLoop_eq (DbTypeStr : String) (cols : List Column) :
    columnListLoop DbTypeStr cols
      = commaSeparated (cols.map (quotedField DbTypeStr)) := by
  cases cols with
  | nil => rfl
  | cons c cs =>
    unfold columnListLoop
    simp only [List.foldl_cons]
    rw [if_neg (by omega)]
    rw [columnListLoop_go DbTypeStr cs ("" ++ quotedField DbTypeStr c) 1 Nat.one_pos]
    have hnil : ("" : String) ++ quotedField DbTypeStr c = quotedField DbTypeStr c := rfl
    rw [hnil, commaSeparated_map]

theorem quotedField_spec (d : DbType) (c : Column) :
    quotedField (DbType.string d) c = specQuote d c := by
  cases d with
  | MySQL => unfold quotedField specQuote; rw [if_pos rfl]
  | PostgreSQL => unfold quotedField specQuote; rw [if_neg (by decide), if_pos rfl]
  | SQLite => unfold quotedField specQuote; rw [if_neg (by decide), if_neg (by decide)]
  | Unsupported => unfold quotedField specQuote; rw [if_neg (by decide), if_neg (by decide)]

theorem buildSelectAll_mysql_shape (cols : List Column) (schema table : String)
    (perPage offset : Int) :
    buildSelectAll cols (DbType.string DbType.MySQL) schema table perPage offset
      = "SELECT " ++ commaSeparated (cols.map (specQuote DbType.MySQL)) ++ " FROM " ++ schema
          ++ "." ++ table ++ " LIMIT " ++ toString perPage ++ " OFFSET " ++ toString offset := by
  unfold buildSelectAll
  rw [if_pos rfl, columnListLoop_eq]
  have hq : quotedField (DbType.string DbType.MySQL) = specQuote DbType.MySQL :=
    funext (quotedField_spec DbType.MySQL)
  rw [hq]
  rfl

theorem buildSelectAll_pg_shape (cols : List Column) (schema table : String)
    (perPage offset : Int) :
    buildSelectAll cols (DbType.string DbType.PostgreSQL) schema table perPage offset
      = "SELECT " ++ commaSeparated (cols.map (specQuote DbType.PostgreSQL)) ++ " FROM " ++ schema
          ++ "." ++ table ++ " LIMIT " ++ toString perPage ++ " OFFSET " ++ toString offset := by
  unfold buildSelectAll
  rw [if_neg (by decide), if_pos rfl, columnListLoop_eq]
  have hq : quotedField (DbType.string DbType.PostgreSQL) = specQuote DbType.PostgreSQL :=
    funext (quotedField_spec DbType.PostgreSQL)
  rw [hq]
  rfl

theorem buildSelectAll_sqlite_shape (cols : List Column) (schema table : String)
    (perPage offset : Int) :
    buildSelectAll cols (DbType.string DbType.SQLite) schema table perPage offset
      = "SELECT " ++ commaSeparated (cols.map (specQuote DbType.SQLite)) ++ " FROM " ++ table
          ++ " LIMIT " ++ toString perPage ++ " OFFSET " ++ toString offset := by
  unfold buildSelectAll
  rw [if_neg (by decide), if_neg (by decide), if_pos rfl, columnListLoop_eq]
  have hq : quotedField (DbType.string DbType.SQLite) = specQuote DbType.SQLite :=
    funext (quotedField_spec DbType.SQLite)
  rw [hq]
  rfl

/-- C1 (amended): for MySQL and PostgreSQL, `buildSelectAll` emits exactly
`SELECT <quoted-cols> FROM <schema>.<table> LIMIT <perPage> OFFSET <offset>`
with `<quoted-cols>` the `len(cols)` comma-separated identifiers, backtick-
quoted for MySQL and double-quoted for PostgreSQL; for SQLite the identifiers
are unquoted and the statement carries no schema qualifier:
`SELECT <cols> FROM <table> LIMIT <perPage> OFFSET <offset>`. -/
theorem buildSelectAll_dialect_shapes (cols : List Column) (schema table : String)
    (perPage offset : Int) :
    buildSelectAll cols (DbType.string DbType.MySQL) schema table perPage offset
        = specSelectAll cols DbType.MySQL schema table perPage offset
    ∧ buildSelectAll cols (DbType.string DbType.PostgreSQL) schema table perPage offset
        = specSelectAll cols DbType.PostgreSQL schema table perPage offset
    ∧ buildSelectAll cols (DbType.string DbType.SQLite) schema table perPage offset
        = "SELECT " ++ commaSeparated (cols.map (specQuote DbType.SQLite)) ++ " FROM " ++ table
            ++ " LIMIT " ++ toString perPage ++ " OFFSET " ++ toString offset := by
  refine ⟨?_, ?_, ?_⟩
  · rw [buildSelectAll_mysql_shape]; rfl
  · rw [buildSelectAll_pg_shape]; rfl
  · exact buildSelectAll_sqlite_shape cols schema table perPage offset

/-- C1 (counterexample): at the concrete input cols = [column "a"],
dialect SQLite, schema "s", table "t", perPage 50, offset 100, the code emits
`SELECT a FROM t LIMIT 50 OFFSET 100` — not the claimed
`SELECT a FROM s.t LIMIT 50 OFFSET 100`: the SQLite statement drops the
schema qualifier. -/
theorem buildSelectAll_sqlite_counterexample :
    buildSelectAll [⟨"a", "int", "", "", "", ""⟩] (DbType.string DbType.SQLite) "s" "t" 50 100
        = "SELECT a FROM t LIMIT 50 OFFSET 100"
    ∧ buildSelectAll [⟨"a", "int", "", "", "", ""⟩] (DbType.string DbType.SQLite) "s" "t" 50 100
        ≠ specSelectAll [⟨"a", "int", "", "", "", ""⟩] DbType.SQLite "s" "t" 50 100 := by
  constructor
  · decide
  · decide

/-- C2: the page count computed by the handler equals
`round(totalRows / perPage)` — rounding to nearest (half away from zero over
the nonnegative inputs), not ceiling — floored at 1 page; in particular
`totalPages(0, 50) = 1`, `totalPages(250, 50) = 5` and
`totalPages(251, 50) = 5`. -/
theorem handlerTotalPages_round (totalRows perPage : ℕ) (hp : 0 < perPage) :
    handlerTotalPages totalRows perPage
        = ((max 1 (round ((totalRows : ℚ) / (perPage : ℚ))) : ℤ) : ℚ)
    ∧ handlerTotalPages 0 50 = 1
    ∧ handlerTotalPages 250 50 = 5
    ∧ handlerTotalPages 251 50 = 5 := by
  refine ⟨?_, ?_, ?_, ?_⟩
  · simp only [handlerTotalPages]
    set t : ℚ := (totalRows : ℚ) / (perPage : ℚ) with ht
    have ht0 : 0 ≤ t := div_nonneg (Nat.cast_nonneg _) (Nat.cast_nonneg _)
    by_cases h : t < 1
    · rw [if_pos h]
      have hr : round t ≤ 1 := by
        rw [round_eq]
        have hlt : ⌊t + 1 / 2⌋ < 2 := Int.floor_lt.mpr (by push_cast; linarith)
        omega
      rw [max_eq_left hr]
      norm_num
    · rw [if_neg h]
      push_neg at h
      unfold goMathRound
      rw [if_pos ht0]
      have hr : 1 ≤ round t := by
        rw [round_eq]
        exact Int.le_floor.mpr (by push_cast; linarith)
      rw [max_eq_right hr, round_eq]
  · simp only [handlerTotalPages]
    norm_num
  · simp only [handlerTotalPages]
    rw [if_neg (by norm_num), goMathRound, if_pos (by positivity)]
    norm_num [Int.floor_eq_iff]
  · simp only [handlerTotalPages]
    rw [if_neg (by norm_num), goMathRound, if_pos (by positivity)]
    norm_num [Int.floor_eq_iff]

/-- Witness for C2 at totalRows = 0, perPage = 50. -/
theorem handlerTotalPages_round_witness :
    0 < 50
    ∧ (handlerTotalPages 0 50
          = ((max 1 (round ((0 : ℚ) / (50 : ℚ))) : ℤ) : ℚ)
        ∧ handlerTotalPages 0 50 = 1
        ∧ handlerTotalPages 250 50 = 5
        ∧ handlerTotalPages 251 50 = 5) := by
  refine ⟨by norm_num, ?_⟩
  have h := handlerTotalPages_round 0 50 (by norm_num)
  simpa using h

theorem wrapValueLoop_any (l : List String) (lc v : String) :
    wrapValueLoop l lc v
      = if l.any (fun s => goContains lc s) then "'" ++ v ++ "'" else v := by
  induction l with
  | nil => simp [wrapValueLoop]
  | cons s rest ih =>
    by_cases h : goContains lc s
    · simp [wrapValueLoop, h]
    · simp [wrapValueLoop, h, ih]

theorem wrapKeyLoop_eq_wrapValueLoop (l : List String) (lc v : String) :
    wrapKeyLoop l lc v = wrapValueLoop l lc v := by
  induction l with
  | nil => rfl
  | cons s rest ih =>
    by_cases h : goContains lc s
    · simp [wrapKeyLoop, wrapValueLoop, h]
    · simp [wrapKeyLoop, wrapValueLoop, h, ih]

/-- C3: a value's literal is single-quoted exactly when the lower-cased type
name contains one of the substrings char, text, date, time, year, and
unquoted otherwise; the rule is the same for the SET value (`wrapValue`) and
the WHERE key (`wrapPrimaryKey`); concretely, an UPDATE built over VARCHAR
probes quotes both literals, and one built over INT probes quotes neither. -/
theorem wrap_quoting_characterization :
    (∀ dataType value, wrapValue dataType value
        = if stringDataTypes.any (fun s => goContains (goToLower dataType) s)
          then "'" ++ value ++ "'" else value)
    ∧ (∀ dataType priKey, wrapPrimaryKey dataType priKey = wrapValue dataType priKey)
    ∧ (UpdateRow "t" "c" "newv" "key" "id" varcharClient).2
        = ["UPDATE t SET c = 'newv' WHERE id = 'key'"]
    ∧ (UpdateRow "t" "c" "5" "7" "id" intClient).2
        = ["UPDATE t SET c = 5 WHERE id = 7"] := by
  refine ⟨?_, ?_, ?_, ?_⟩
  · intro dataType value
    exact wrapValueLoop_any stringDataTypes (goToLower dataType) value
  · intro dataType priKey
    exact wrapKeyLoop_eq_wrapValueLoop stringDataTypes (goToLower dataType) priKey
  · decide
  · decide

/-- C9: the two literal-wrapping functions of the update path are
extensionally equal — for every data-type string and every value,
`wrapPrimaryKey` and `wrapValue` agree (the source duplicates the loop). -/
theorem wrapPrimaryKey_eq_wrapValue (dataType value : String) :
    wrapPrimaryKey dataType value = wrapValue dataType value :=
  wrapKeyLoop_eq_wrapValueLoop stringDataTypes (goToLower dataType) value

/-- C4 (counterexample): with the Unsupported dialect and a live handle whose
every call succeeds, `ExecuteQuery` and `GetSchemaNames` return a nil result
together with a nil error (`.ok none`) — not a typed error. -/
theorem executeQuery_unsupported_counterexample :
    ExecuteQuery "SELECT 1" unsupportedClient = .ok none
    ∧ GetSchemaNames unsupportedClient = .ok none :=
  ⟨rfl, rfl⟩

/-- C4 (amended): downstream operations do not reject an unhandled dialect
with a typed error: for every dialect their switch does not match (SQLite and
Unsupported in `ExecuteQuery` and `GetSchemaNames`), they fall through and
return a nil result with a nil error. -/
theorem dialect_fallthrough_nil_nil (db : GoDB) (schemaName q : String) (ty : DbType)
    (h : ty = DbType.SQLite ∨ ty = DbType.Unsupported) :
    ExecuteQuery q ⟨some db, ty, schemaName⟩ = .ok none
    ∧ GetSchemaNames ⟨some db, ty, schemaName⟩ = .ok none := by
  rcases h with h | h <;> subst h <;> exact ⟨rfl, rfl⟩

/-- Witness for C4 (amended) at the Unsupported dialect over `trivialDB`. -/
theorem dialect_fallthrough_nil_nil_witness :
    (DbType.Unsupported = DbType.SQLite ∨ DbType.Unsupported = DbType.Unsupported)
    ∧ (ExecuteQuery "SELECT 1" ⟨some trivialDB, DbType.Unsupported, "s"⟩ = .ok none
        ∧ GetSchemaNames ⟨some trivialDB, DbType.Unsupported, "s"⟩ = .ok none) :=
  ⟨Or.inr rfl,
    dialect_fallthrough_nil_nil trivialDB "s" "SELECT 1" DbType.Unsupported (Or.inr rfl)⟩

/-- C5 (code bug): `GetSchemaSize` on a MySQL client whose size query fails
returns the zero `SchemaSize` with a nil error: the helper reports the error,
and client.go line 203 replaces it by `SchemaSize{}, nil`. -/
theorem getSchemaSize_swallows_error :
    getSchemaSizeHelper (MySQLSchemaSize "shop") failingSizeDB
        = .error "error executing query: connection lost"
    ∧ GetSchemaSize ⟨some failingSizeDB, DbType.MySQL, "shop"⟩ "shop" = .ok ⟨"", 0⟩ :=
  ⟨rfl, rfl⟩

theorem buildRowAux_not_mem :
    ∀ (cols : List String) (vals : List GoVal) (r : RowFn) (k : String),
      k ∉ cols → buildRowAux r cols vals k = r k := by
  intro cols
  induction cols with
  | nil => intro vals r k _; rfl
  | cons c cs ih =>
    intro vals r k hk
    cases vals with
    | nil => rfl
    | cons v vs =>
      have hk1 : k ≠ c := fun hq => hk (hq ▸ List.mem_cons_self c cs)
      have hk2 : k ∉ cs := fun hq => hk (List.mem_cons_of_mem c hq)
      show buildRowAux (rowInsert r c (decodeCell v)) cs vs k = r k
      rw [ih vs _ k hk2]
      unfold rowInsert
      rw [if_neg hk1]

theorem buildRowAux_lookup :
    ∀ (cols : List String) (vals : List GoVal) (r : RowFn) (i : ℕ) (cname : String)
      (v : GoVal), cols.Nodup → cols[i]? = some cname → vals[i]? = some v →
      buildRowAux r cols vals cname = some (decodeCell v) := by
  intro cols
  induction cols with
  | nil => intro vals r i cname v _ hc _; simp at hc
  | cons c cs ih =>
    intro vals r i cname v hnd hc hv
    cases vals with
    | nil => simp at hv
    | cons v0 vs =>
      cases i with
      | zero =>
        simp only [List.getElem?_cons_zero, Option.some.injEq] at hc hv
        subst hc
        subst hv
        show buildRowAux (rowInsert r c (decodeCell v0)) cs vs c = some (decodeCell v0)
        rw [buildRowAux_not_mem cs vs _ c (List.nodup_cons.mp hnd).1]
        unfold rowInsert
        rw [if_pos rfl]
      | succ j =>
        simp only [List.getElem?_cons_succ] at hc hv
        exact ih vs _ j cname v (List.nodup_cons.mp hnd).2 hc hv

/-- C6: the row decoder maps each cell independently — with the result set the
driver returned, `getTableHelper` produces exactly the input rows decoded in
input order (a `List.map`, no re-sorting); a cell under a distinct column
name decodes to `decodeCell` of its raw value; `decodeCell` turns a byte
slice into its string form and leaves every other driver value unchanged.
The decoder is a pure function, hence deterministic and side-effect-free. -/
theorem getTableHelper_decode (d : GoDB) (q : String) (rs : RawResultSet)
    (hq : d.query q = .ok rs)
    (cols : List String) (vals : List GoVal) (i : ℕ) (cname : String) (v : GoVal)
    (hnd : cols.Nodup) (hc : cols[i]? = some cname) (hv : vals[i]? = some v)
    (b : List UInt8) (w : GoVal) (hw : w.isBytes = false) :
    getTableHelper q (some d)
        = .ok ⟨rs.rows.map (buildRow rs.columns), rs.columns.length, rs.rows.length⟩
    ∧ buildRow cols vals cname = some (decodeCell v)
    ∧ decodeCell (GoVal.bytes b) = GoVal.str (stringOfBytes b)
    ∧ decodeCell w = w := by
  refine ⟨?_, ?_, rfl, ?_⟩
  · simp only [getTableHelper, hq]
    simp [List.length_map]
  · exact buildRowAux_lookup cols vals _ i cname v hnd hc hv
  · cases w <;> first | rfl | simp [GoVal.isBytes] at hw

/-- Witness for C6 over `sampleDB`: one row holding a byte-slice cell and an
int cell. -/
theorem getTableHelper_decode_witness :
    sampleDB.query "SELECT name, n FROM t" = .ok sampleRS
    ∧ (["name", "n"] : List String).Nodup
    ∧ (["name", "n"] : List String)[0]? = some "name"
    ∧ ([GoVal.bytes [104, 105], GoVal.int 7] : List GoVal)[0]? = some (GoVal.bytes [104, 105])
    ∧ (GoVal.int 7).isBytes = false
    ∧ (getTableHelper "SELECT name, n FROM t" (some sampleDB)
          = .ok ⟨sampleRS.rows.map (buildRow sampleRS.columns), sampleRS.columns.length,
                  sampleRS.rows.length⟩
        ∧ buildRow ["name", "n"] [GoVal.bytes [104, 105], GoVal.int 7] "name"
            = some (decodeCell (GoVal.bytes [104, 105]))
        ∧ decodeCell (GoVal.bytes [104, 105]) = GoVal.str (stringOfBytes [104, 105])
        ∧ decodeCell (GoVal.int 7) = GoVal.int 7) :=
  ⟨rfl, by decide, rfl, rfl, rfl,
    getTableHelper_decode sampleDB "SELECT name, n FROM t" sampleRS rfl
      ["name", "n"] [GoVal.bytes [104, 105], GoVal.int 7] 0 "name" (GoVal.bytes [104, 105])
      (by decide) rfl rfl [104, 105] (GoVal.int 7) rfl⟩

/-- C7: once the PostgreSQL reconstruction function has been created, the
drop of that function is issued on every exit path of the export — the
executed-statement trace is exactly create-then-drop whatever the per-table
lookups do (including a mid-loop failure), so the drop is always issued. -/
theorem showCreateTablePg_always_drops (c : Client) (db : GoDB) (tables : List String)
    (seperator : String) (hdb : c.database = some db) (r : ExecRes)
    (hr : db.exec PostgreSQLShowCreateFunction = .ok r) :
    (ShowCreateTablePostgreSQL c tables seperator).2
        = [PostgreSQLShowCreateFunction, PostgreSQLDropShowCreateFunction]
    ∧ PostgreSQLDropShowCreateFunction ∈ (ShowCreateTablePostgreSQL c tables seperator).2 := by
  have htrace : (ShowCreateTablePostgreSQL c tables seperator).2
      = [PostgreSQLShowCreateFunction, PostgreSQLDropShowCreateFunction] := by
    simp only [ShowCreateTablePostgreSQL, hdb, hr]
  refine ⟨htrace, ?_⟩
  rw [htrace]
  simp

/-- Witness for C7: the create succeeds and the single table's DDL lookup
fails mid-loop; the drop is still in the trace. -/
theorem showCreateTablePg_always_drops_witness :
    (⟨some pgFailDB, DbType.PostgreSQL, "public"⟩ : Client).database = some pgFailDB
    ∧ pgFailDB.exec PostgreSQLShowCreateFunction = .ok ⟨.ok 0⟩
    ∧ ((ShowCreateTablePostgreSQL ⟨some pgFailDB, DbType.PostgreSQL, "public"⟩ ["t1"] "=").2
          = [PostgreSQLShowCreateFunction, PostgreSQLDropShowCreateFunction]
        ∧ PostgreSQLDropShowCreateFunction
            ∈ (ShowCreateTablePostgreSQL ⟨some pgFailDB, DbType.PostgreSQL, "public"⟩
                ["t1"] "=").2) :=
  ⟨rfl, rfl,
    showCreateTablePg_always_drops ⟨some pgFailDB, DbType.PostgreSQL, "public"⟩ pgFailDB
      ["t1"] "=" rfl ⟨.ok 0⟩ rfl⟩

/-- C8 (counterexample): the handler passes the parsed page through
unclamped, so at page 0 and perPage 50 the SELECT built by `GetTable` embeds
`OFFSET -50`: the pagination offset is not always ≥ 0. -/
theorem getTableSelectQuery_negative_offset :
    getTableSelectQuery ⟨some trivialDB, DbType.MySQL, "s"⟩ "t" 0 50
        [⟨"a", "int", "", "", "", ""⟩]
      = "SELECT `a` FROM s.t LIMIT 50 OFFSET -50"
    ∧ ¬ (0 ≤ ((0 : Int) - 1) * 50) := by
  exact ⟨by decide, by decide⟩

/-- C8 (amended): the OFFSET embedded in the SELECT built by `GetTable`
equals `(page-1)*perPage`; it is nonnegative provided the caller clamps
`page ≥ 1` (and `perPage ≥ 0`) — the handler performs no such clamp. -/
theorem getTableSelectQuery_offset (c : Client) (tableName : String)
    (page perPage : Int) (cols : List Column)
    (hty : c.dbtype = DbType.MySQL) (h1 : 1 ≤ page) (h2 : 0 ≤ perPage) :
    getTableSelectQuery c tableName page perPage cols
        = "SELECT " ++ commaSeparated (cols.map (specQuote DbType.MySQL)) ++ " FROM "
            ++ c.schemaName ++ "." ++ tableName ++ " LIMIT " ++ toString perPage
            ++ " OFFSET " ++ toString ((page - 1) * perPage)
    ∧ 0 ≤ (page - 1) * perPage := by
  constructor
  · unfold getTableSelectQuery
    rw [hty]
    exact buildSelectAll_mysql_shape cols c.schemaName tableName perPage ((page - 1) * perPage)
  · have hp : (0 : Int) ≤ page - 1 := by omega
    exact mul_nonneg hp h2

/-- Witness for C8 (amended) at page 1, perPage 50 on a MySQL client. -/
theorem getTableSelectQuery_offset_witness :
    (⟨some trivialDB, DbType.MySQL, "s"⟩ : Client).dbtype = DbType.MySQL
    ∧ (1 : Int) ≤ 1
    ∧ (0 : Int) ≤ 50
    ∧ (getTableSelectQuery ⟨some trivialDB, DbType.MySQL, "s"⟩ "t" 1 50
          [⟨"a", "int", "", "", "", ""⟩]
        = "SELECT " ++ commaSeparated ([⟨"a", "int", "", "", "", ""⟩].map
              (specQuote DbType.MySQL)) ++ " FROM "
            ++ (⟨some trivialDB, DbType.MySQL, "s"⟩ : Client).schemaName ++ "." ++ "t"
            ++ " LIMIT " ++ toString (50 : Int)
            ++ " OFFSET " ++ toString (((1 : Int) - 1) * 50)
        ∧ (0 : Int) ≤ ((1 : Int) - 1) * 50) :=
  ⟨rfl, by norm_num, by norm_num,
    getTableSelectQuery_offset ⟨some trivialDB, DbType.MySQL, "s"⟩ "t" 1 50
      [⟨"a", "int", "", "", "", ""⟩] rfl (by norm_num) (by norm_num)⟩

/-- C10: if either type probe of `UpdateRow` fails, `UpdateRow` returns a
non-nil error and hands no statement to `db.Exec` — the UPDATE is never
built or executed on that path. -/
theorem updateRow_probe_failure_atomic
    (table parentCol newVal priKeyVal priKeyCol e : String) (c : Client)
    (h : getColumnDataType table c.schemaName parentCol (DbType.string c.dbtype) c.database
          = .error e
        ∨ getColumnDataType table c.schemaName priKeyCol (DbType.string c.dbtype) c.database
          = .error e) :
    (UpdateRow table parentCol newVal priKeyVal priKeyCol c).2 = []
    ∧ ∃ e2, (UpdateRow table parentCol newVal priKeyVal priKeyCol c).1 = .error e2 := by
  rcases hdb : c.database with _ | db
  · constructor
    · simp [UpdateRow, hdb]
    · exact ⟨"database connection is nil", by simp [UpdateRow, hdb]⟩
  · rw [hdb] at h
    rcases hp1 : getColumnDataType table c.schemaName parentCol (DbType.string c.dbtype)
        (some db) with e1 | dt1
    · constructor
      · simp [UpdateRow, hdb, hp1]
      · exact ⟨e1, by simp [UpdateRow, hdb, hp1]⟩
    · rcases hp2 : getColumnDataType table c.schemaName priKeyCol (DbType.string c.dbtype)
          (some db) with e2 | dt2
      · constructor
        · simp [UpdateRow, hdb, hp1, hp2]
        · exact ⟨e2, by simp [UpdateRow, hdb, hp1, hp2]⟩
      · rcases h with h | h
        · rw [hp1] at h; simp at h
        · rw [hp2] at h; simp at h

/-- Witness for C10: both probes fail on `probeFailDB`; `UpdateRow` errors
and executes nothing. -/
theorem updateRow_probe_failure_atomic_witness :
    (getColumnDataType "t" "s" "c" (DbType.string DbType.MySQL) (some probeFailDB)
        = .error "no such column"
      ∨ getColumnDataType "t" "s" "id" (DbType.string DbType.MySQL) (some probeFailDB)
        = .error "no such column")
    ∧ ((UpdateRow "t" "c" "newv" "key" "id" probeFailClient).2 = []
        ∧ ∃ e2, (UpdateRow "t" "c" "newv" "key" "id" probeFailClient).1 = .error e2) :=
  ⟨Or.inl rfl,
    updateRow_probe_failure_atomic "t" "c" "newv" "key" "id" "no such column"
      probeFailClient (Or.inl rfl)⟩

end Sqlweb
